import Mathlib

/-!
Verification of the startup/policy core of `go-libp2p-relay-daemon`
(`src/cmd/libp2p-relay-daemon/main.go`), as a shallow embedding in Lean.

The embedding covers:
* the address-disclosure policy (`main.go` lines 96-119): the two
  `libp2p.AddrsFactory` closures (static override, automatic public filter);
* the startup control flow of `main` (lines 40-177), modelled as a function
  from the abstract results of each fallible step to a trace of performed
  steps and a final outcome (panicked / log.Fatal exit / running);
* the `listenPprof` helper (lines 180-197) and the prometheus metrics
  goroutine (lines 50-53);
* the repository-root package functions `LoadSwarmKey` and `LoadIdentity`,
  which are called from `main.go` but whose sources are not under `src/`;
  these are modelled from the spec and marked as such.
-/

namespace RelayDaemon

/-- Abstract error type: Go `error` values are modelled by their message. -/
abbrev Err := String

/-- Classification of a multiaddr, as computed by the external
`manet.IsPublicAddr` classifier (the multiaddr library is an external
collaborator; an address carries its classification). -/
inductive AddrClass
  | publicAddr
  | loopback
  | privateAddr
  | linkLocal
  deriving DecidableEq, Repr

/-- A multiaddr: its textual form together with its routability class
(the class stands for what `manet` would compute from the bytes). -/
structure Multiaddr where
  text : String
  cls : AddrClass
  deriving DecidableEq, Repr

/-- `manet.IsPublicAddr`: an address is public iff it is neither loopback,
nor private, nor link-local (external collaborator, modelled by the
classification carried on the address). -/
def IsPublicAddr (a : Multiaddr) : Bool :=
  a.cls == AddrClass.publicAddr

/-- Embeds `main.go` lines 97-101: the loop building the `announce` slice by
appending `ma.StringCast(s)` for each configured string (`parse` stands for
the external `ma.StringCast`). -/
def buildAnnounceList (parse : String → Multiaddr) (strs : List String) :
    List Multiaddr :=
  strs.foldl (fun acc s => acc ++ [parse s]) []

/-- Embeds `main.go` lines 109-117: the automatic-mode `AddrsFactory` body:
the loop appends exactly the candidates satisfying `manet.IsPublicAddr`. -/
def filterPublic (addrs : List Multiaddr) : List Multiaddr :=
  addrs.foldl (fun acc a => if IsPublicAddr a then acc ++ [a] else acc) []

/-- Network section of the JSON configuration (`network.listenAddrs`,
`network.announceAddrs`). -/
structure NetworkConfig where
  ListenAddrs : List String
  AnnounceAddrs : List String
  deriving DecidableEq, Repr

/-- ConnMgr section of the configuration (low/high watermarks, grace). -/
structure ConnMgrConfig where
  ConnMgrLo : Nat
  ConnMgrHi : Nat
  ConnMgrGrace : Nat
  deriving DecidableEq, Repr

/-- Relay resource limits are consumed opaquely by `relayv2.WithResources`;
modelled as an abstract token. -/
abbrev RelayResources := Nat

/-- RelayV2 section of the configuration. -/
structure RelayV2Config where
  Enabled : Bool
  Resources : RelayResources
  deriving DecidableEq, Repr

/-- ACL section of the configuration, consumed opaquely by
`relaydaemon.NewACL`; modelled as an abstract token. -/
abbrev ACLConfig := Nat

/-- Daemon section of the configuration (observability ports). -/
structure DaemonConfig where
  PromPort : Int
  PprofPort : Int
  deriving DecidableEq, Repr

/-- The configuration object returned by `relaydaemon.LoadConfig`. -/
structure Config where
  Network : NetworkConfig
  ConnMgr : ConnMgrConfig
  RelayV2 : RelayV2Config
  ACL : ACLConfig
  Daemon : DaemonConfig
  deriving DecidableEq, Repr

/-- Embeds `main.go` lines 96-119: the `AddrsFactory` selected from the
configuration. With a non-empty `network.announceAddrs` the closure ignores
its argument and returns the parsed `announce` list; otherwise it filters
the candidates through `manet.IsPublicAddr`. -/
def mkAddrsFactory (parse : String → Multiaddr) (cfg : Config) :
    List Multiaddr → List Multiaddr :=
  if 0 < cfg.Network.AnnounceAddrs.length then
    fun _ => buildAnnounceList parse cfg.Network.AnnounceAddrs
  else
    fun addrs => filterPublic addrs

/-- The node's long-term private key (`relaydaemon.LoadIdentity` result),
abstract. -/
abbrev PrivKey := Nat

/-- A private swarm key (pre-shared key), abstract. -/
abbrev PSK := Nat

/-- The fingerprint derived from a swarm key, abstract. -/
abbrev Fingerprint := Nat

/-- The ACL built by `relaydaemon.NewACL(host, cfg.ACL)`: it is constructed
against the live host (identified by its key) and the static ACL
configuration. -/
structure ACL where
  host : PrivKey
  cfgTag : ACLConfig
  deriving DecidableEq, Repr

/-- The handle returned by `relayv2.New(host, WithResources(...),
WithACL(acl), ...)`: records the resource limits and ACL it was wired
with. -/
structure RelayHandle where
  resources : RelayResources
  acl : ACL
  deriving DecidableEq, Repr

/-- Which `AddrsFactory` closure `main` wired into the host options. -/
inductive AddrMode
  | staticMode
  | autoMode
  deriving DecidableEq, Repr

/-- The fallible startup steps of `main` (`main.go` lines 40-175), in
source order. -/
inductive Step
  | loadConfig
  | loadIdentity
  | newStatsReporter
  | newResourceManager
  | loadSwarmKey
  | mkConnMgr
  | mkHost
  | bootstrap
  | mkACL
  | startRelay
  deriving DecidableEq, Repr

deriving instance DecidableEq for Except

/-- The abstract results of the effectful calls `main` makes, in source
order. `swarmKeyRes` distinguishes a load error (`error`), an absent key
(`ok none`, `psk == nil` with `err == nil`), and a loaded key
(`ok (some _)`). -/
structure World where
  configRes : Except Err Config
  identityRes : Except Err PrivKey
  statsReporterRes : Except Err Unit
  rcmgrRes : Except Err Unit
  swarmKeyRes : Except Err (Option (PSK × Fingerprint))
  connMgrRes : Except Err Unit
  hostRes : Except Err Unit
  bootstrapRes : Except Err Unit
  aclRes : Except Err Unit
  relayRes : Except Err Unit
  deriving DecidableEq, Repr

/-- The state of a run of `main` that reached the final `select {}`. -/
structure RunState where
  hostKey : PrivKey
  psk : Option (PSK × Fingerprint)
  addrMode : AddrMode
  acl : ACL
  relay : Option RelayHandle
  deriving DecidableEq, Repr

/-- How a run of `main` ends: `panicked s` for a `panic(err)` at step `s`,
`fatal s` for a `log.Fatal(err)` at step `s` (both terminate the process),
`running st` for reaching `select {}` with state `st`. -/
inductive Outcome
  | panicked (s : Step)
  | fatal (s : Step)
  | running (st : RunState)
  deriving DecidableEq, Repr

/-- A run of `main`: the trace of steps performed (in order) and the final
outcome. -/
structure RunResult where
  trace : List Step
  outcome : Outcome
  deriving DecidableEq, Repr

/-- The swarm-key value `main` ends up with after lines 85-94: on a load
error the error is printed (`fmt.Printf`) and `psk` stays `nil`, so the run
continues with no private network. -/
def pskOf (r : Except Err (Option (PSK × Fingerprint))) :
    Option (PSK × Fingerprint) :=
  match r with
  | .error _ => none
  | .ok o => o

/-- The `AddrsFactory` mode selected at `main.go` line 96. -/
def addrModeOf (cfg : Config) : AddrMode :=
  if 0 < cfg.Network.AnnounceAddrs.length then .staticMode else .autoMode

/-- Embeds the control flow of `main` (`main.go` lines 40-177) over the
abstract step results in `w`:
`LoadConfig` error panics (line 42); `LoadIdentity` error panics (line 46);
`NewStatsTraceReporter` / `NewResourceManager` errors call `log.Fatal`
(lines 59, 63); a `LoadSwarmKey` error is printed but not fatal (line 88);
`NewConnManager` error panics (line 127); `libp2p.New` error panics
(line 145); `kaddht.Bootstrap` error panics (line 149); `NewACL` error
panics (line 162); when `cfg.RelayV2.Enabled`, `relayv2.New` error panics
(line 172); otherwise the process parks in `select {}`. -/
def runMain (w : World) : RunResult :=
  match w.configRes with
  | .error _ => ⟨[.loadConfig], .panicked .loadConfig⟩
  | .ok cfg =>
    match w.identityRes with
    | .error _ => ⟨[.loadConfig, .loadIdentity], .panicked .loadIdentity⟩
    | .ok privk =>
      match w.statsReporterRes with
      | .error _ =>
        ⟨[.loadConfig, .loadIdentity, .newStatsReporter],
         .fatal .newStatsReporter⟩
      | .ok _ =>
        match w.rcmgrRes with
        | .error _ =>
          ⟨[.loadConfig, .loadIdentity, .newStatsReporter,
            .newResourceManager], .fatal .newResourceManager⟩
        | .ok _ =>
          let psk := pskOf w.swarmKeyRes
          match w.connMgrRes with
          | .error _ =>
            ⟨[.loadConfig, .loadIdentity, .newStatsReporter,
              .newResourceManager, .loadSwarmKey, .mkConnMgr],
             .panicked .mkConnMgr⟩
          | .ok _ =>
            match w.hostRes with
            | .error _ =>
              ⟨[.loadConfig, .loadIdentity, .newStatsReporter,
                .newResourceManager, .loadSwarmKey, .mkConnMgr, .mkHost],
               .panicked .mkHost⟩
            | .ok _ =>
              match w.bootstrapRes with
              | .error _ =>
                ⟨[.loadConfig, .loadIdentity, .newStatsReporter,
                  .newResourceManager, .loadSwarmKey, .mkConnMgr, .mkHost,
                  .bootstrap], .panicked .bootstrap⟩
              | .ok _ =>
                match w.aclRes with
                | .error _ =>
                  ⟨[.loadConfig, .loadIdentity, .newStatsReporter,
                    .newResourceManager, .loadSwarmKey, .mkConnMgr, .mkHost,
                    .bootstrap, .mkACL], .panicked .mkACL⟩
                | .ok _ =>
                  let acl : ACL := ⟨privk, cfg.ACL⟩
                  if cfg.RelayV2.Enabled then
                    match w.relayRes with
                    | .error _ =>
                      ⟨[.loadConfig, .loadIdentity, .newStatsReporter,
                        .newResourceManager, .loadSwarmKey, .mkConnMgr,
                        .mkHost, .bootstrap, .mkACL, .startRelay],
                       .panicked .startRelay⟩
                    | .ok _ =>
                      ⟨[.loadConfig, .loadIdentity, .newStatsReporter,
                        .newResourceManager, .loadSwarmKey, .mkConnMgr,
                        .mkHost, .bootstrap, .mkACL, .startRelay],
                       .running ⟨privk, psk, addrModeOf cfg, acl,
                         some ⟨cfg.RelayV2.Resources, acl⟩⟩⟩
                  else
                    ⟨[.loadConfig, .loadIdentity, .newStatsReporter,
                      .newResourceManager, .loadSwarmKey, .mkConnMgr,
                      .mkHost, .bootstrap, .mkACL],
                     .running ⟨privk, psk, addrModeOf cfg, acl, none⟩⟩

/-- Contents of a key file on disk, for the spec-modelled loaders. -/
inductive KeyFile
  | unreadable
  | malformed
  | validSwarmKey (psk : PSK) (fprint : Fingerprint)
  | validIdentity (k : PrivKey)
  deriving DecidableEq, Repr

/-- Modelled from the spec: `loadNetworkSecret(path) -> (Secret, Fingerprint)
| Error`; an absent path is not an error and yields "no secret" (public
network). This stands for `relaydaemon.LoadSwarmKey`, which lives in the
repository root package and is not under `src/`; `fs` is the file system
(`none` = path absent). -/
def loadSwarmKey (fs : String → Option KeyFile) (path : String) :
    Except Err (Option (PSK × Fingerprint)) :=
  match fs path with
  | none => .ok none
  | some .unreadable => .error "io error"
  | some .malformed => .error "decode error"
  | some (.validSwarmKey psk fp) => .ok (some (psk, fp))
  | some (.validIdentity _) => .error "decode error"

/-- Modelled from the spec: `loadIdentity(path) -> PrivateKey |
Error(IOError | DecodeError)`; must deterministically fail (not silently
generate a new identity) if the path exists but is unreadable or malformed.
This stands for `relaydaemon.LoadIdentity`, which lives in the repository
root package and is not under `src/`; `fresh` is the identity that would be
generated for an absent path (the spec leaves the absent case to the
implementation). -/
def loadIdentity (fs : String → Option KeyFile) (path : String)
    (fresh : PrivKey) : Except Err PrivKey :=
  match fs path with
  | none => .ok fresh
  | some .unreadable => .error "io error"
  | some .malformed => .error "decode error"
  | some (.validIdentity k) => .ok k
  | some (.validSwarmKey _ _) => .error "decode error"

/-- Result of `http.ListenAndServe` as observed by `listenPprof`: the Go
`nil` case, `http.ErrServerClosed`, or any other error. -/
inductive ServeResult
  | ok
  | serverClosed
  | err (e : Err)
  deriving DecidableEq, Repr

/-- How the pprof goroutine ends: no bind attempted (port `-1`), server
returned normally, server was shut down, or `panic(err)` (which crashes the
whole process, since a panic in a goroutine is fatal in Go). -/
inductive PprofOutcome
  | disabled
  | finishedOk
  | finishedClosed
  | panicked (e : Err)
  deriving DecidableEq, Repr

/-- Embeds `listenPprof` (`main.go` lines 180-197): for port `-1` it prints
and returns without binding; otherwise it serves on `localhost:<port>` and
switches on the error: `nil` and `http.ErrServerClosed` are fine, any other
error is printed and then `panic(err)`. Returns the outcome together with
the address it attempted to bind (`none` when no bind was attempted);
`serve` stands for `http.ListenAndServe` at a given address. -/
def listenPprof (serve : String → ServeResult) (p : Int) :
    PprofOutcome × Option String :=
  if p = -1 then
    (.disabled, none)
  else
    let addr := "localhost:" ++ toString p
    match serve addr with
    | .ok => (.finishedOk, some addr)
    | .serverClosed => (.finishedClosed, some addr)
    | .err e => (.panicked e, some addr)

/-- How the prometheus metrics goroutine ends: always in `log.Fatal`, which
terminates the whole process with the error from `http.ListenAndServe`. -/
inductive PromOutcome
  | fatalExit (e : Err)
  deriving DecidableEq, Repr

/-- Embeds the metrics goroutine (`main.go` lines 50-53):
`log.Fatal(http.ListenAndServe(fmt.Sprintf(":%d", promPort), nil))` —
whenever `ListenAndServe` returns (it only returns on error), `log.Fatal`
terminates the process; `serve` stands for `http.ListenAndServe` at
`:<promPort>` and yields the error it returns. -/
def promServer (serve : Int → Err) (promPort : Int) : PromOutcome :=
  .fatalExit (serve promPort)

/-- `s` occurs in trace `l` strictly before `t`. -/
def stepBefore (l : List Step) (s t : Step) : Prop :=
  s ∈ l ∧ t ∈ l ∧ l.indexOf s < l.indexOf t

instance (l : List Step) (s t : Step) : Decidable (stepBefore l s t) :=
  inferInstanceAs (Decidable (_ ∧ _ ∧ _))

/-- A parse function standing for `ma.StringCast` in concrete examples:
every string parses to a public address. -/
def parseAllPublic : String → Multiaddr :=
  fun s => ⟨s, AddrClass.publicAddr⟩

/-- A concrete configuration with a non-empty `network.announceAddrs`
(static-override mode) and RelayV2 enabled. -/
def cfgStatic : Config :=
  ⟨⟨["/ip4/0.0.0.0/tcp/4001"], ["/ip4/1.2.3.4/tcp/4001"]⟩,
   ⟨512, 768, 120⟩, ⟨true, 7⟩, 3, ⟨9090, 6060⟩⟩

/-- A concrete configuration with empty `network.announceAddrs`
(automatic mode) and RelayV2 enabled. -/
def cfgAuto : Config :=
  ⟨⟨["/ip4/0.0.0.0/tcp/4001"], []⟩,
   ⟨512, 768, 120⟩, ⟨true, 7⟩, 3, ⟨9090, 6060⟩⟩

/-- A concrete public candidate address. -/
def addrPub : Multiaddr := ⟨"/ip4/8.8.8.8/tcp/4001", AddrClass.publicAddr⟩

/-- A concrete loopback candidate address. -/
def addrLoop : Multiaddr := ⟨"/ip4/127.0.0.1/tcp/4001", AddrClass.loopback⟩

/-- A concrete private-range candidate address. -/
def addrPriv : Multiaddr := ⟨"/ip4/192.168.1.2/tcp/4001", AddrClass.privateAddr⟩

/-- A concrete world in which every startup step succeeds and no swarm key
is configured. -/
def wAllOk : World :=
  ⟨.ok cfgStatic, .ok 42, .ok (), .ok (), .ok none, .ok (), .ok (), .ok (),
   .ok (), .ok ()⟩

/-- A concrete world in which configuration loading fails. -/
def wCfgErr : World :=
  ⟨.error "parse error", .ok 42, .ok (), .ok (), .ok none, .ok (), .ok (),
   .ok (), .ok (), .ok ()⟩

/-- A concrete world in which `LoadSwarmKey` fails and every other step
succeeds. -/
def wSwarmErr : World :=
  ⟨.ok cfgAuto, .ok 42, .ok (), .ok (), .error "decode error", .ok (),
   .ok (), .ok (), .ok (), .ok ()⟩

/-- A concrete world in which `kaddht.Bootstrap` fails and every prior step
succeeds. -/
def wBootErr : World :=
  ⟨.ok cfgAuto, .ok 42, .ok (), .ok (), .ok none, .ok (), .ok (),
   .error "no seeds reachable", .ok (), .ok ()⟩

theorem buildAnnounceList_eq_map (parse : String → Multiaddr)
    (strs : List String) : buildAnnounceList parse strs = strs.map parse := by
  suffices h : ∀ acc : List Multiaddr,
      strs.foldl (fun acc s => acc ++ [parse s]) acc = acc ++ strs.map parse by
    simpa [buildAnnounceList] using h []
  induction strs with
  | nil => intro acc; simp
  | cons s rest ih => intro acc; simp [List.foldl_cons, ih]

theorem filterPublic_eq_filter (addrs : List Multiaddr) :
    filterPublic addrs = addrs.filter (fun a => IsPublicAddr a) := by
  suffices h : ∀ acc : List Multiaddr,
      addrs.foldl (fun acc a => if IsPublicAddr a then acc ++ [a] else acc) acc
        = acc ++ addrs.filter (fun a => IsPublicAddr a) by
    simpa [filterPublic] using h []
  induction addrs with
  | nil => intro acc; simp
  | cons a rest ih =>
    intro acc
    by_cases hp : IsPublicAddr a
    · simp [List.foldl_cons, hp, ih, List.filter_cons]
    · simp [List.foldl_cons, hp, ih, List.filter_cons]

theorem mkAddrsFactory_auto (parse : String → Multiaddr) (cfg : Config)
    (h : cfg.Network.AnnounceAddrs = []) (cands : List Multiaddr) :
    mkAddrsFactory parse cfg cands = cands.filter (fun a => IsPublicAddr a) := by
  simp [mkAddrsFactory, h, filterPublic_eq_filter]

theorem runMain_running_identity (w : World) (st : RunState)
    (h : (runMain w).outcome = .running st) : w.identityRes = .ok st.hostKey := by
  rcases w with ⟨cr, ir, sr, rr, skr, cmr, hr, br, ar, rlr⟩
  rcases cr with e | cfg
  · simp [runMain] at h
  rcases ir with e | privk
  · simp [runMain] at h
  rcases sr with e | u
  · simp [runMain] at h
  rcases rr with e | u
  · simp [runMain] at h
  rcases cmr with e | u
  · simp [runMain] at h
  rcases hr with e | u
  · simp [runMain] at h
  rcases br with e | u
  · simp [runMain] at h
  rcases ar with e | u
  · simp [runMain] at h
  by_cases hen : cfg.RelayV2.Enabled
  · rcases rlr with e | u
    · simp [runMain, hen] at h
    · simp [runMain, hen] at h
      subst h
      rfl
  · simp [runMain, hen] at h
    subst h
    rfl

theorem runMain_running_psk (w : World) (st : RunState)
    (h : (runMain w).outcome = .running st) :
    st.psk = pskOf w.swarmKeyRes := by
  rcases w with ⟨cr, ir, sr, rr, skr, cmr, hr, br, ar, rlr⟩
  rcases cr with e | cfg
  · simp [runMain] at h
  rcases ir with e | privk
  · simp [runMain] at h
  rcases sr with e | u
  · simp [runMain] at h
  rcases rr with e | u
  · simp [runMain] at h
  rcases cmr with e | u
  · simp [runMain] at h
  rcases hr with e | u
  · simp [runMain] at h
  rcases br with e | u
  · simp [runMain] at h
  rcases ar with e | u
  · simp [runMain] at h
  by_cases hen : cfg.RelayV2.Enabled
  · rcases rlr with e | u
    · simp [runMain, hen] at h
    · simp [runMain, hen] at h
      subst h
      rfl
  · simp [runMain, hen] at h
    subst h
    rfl

theorem runMain_mkHost_mem (w : World) (cfg : Config) (privk : PrivKey)
    (hc : w.configRes = .ok cfg) (hi : w.identityRes = .ok privk)
    (hs : w.statsReporterRes = .ok ()) (hrm : w.rcmgrRes = .ok ())
    (hcm : w.connMgrRes = .ok ()) :
    Step.mkHost ∈ (runMain w).trace := by
  rcases w with ⟨cr, ir, sr, rr, skr, cmr, hr, br, ar, rlr⟩
  subst hc; subst hi; subst hs; subst hrm; subst hcm
  rcases hr with e | u
  · simp [runMain]
  rcases br with e | u
  · simp [runMain]
  rcases ar with e | u
  · simp [runMain]
  by_cases hen : cfg.RelayV2.Enabled
  · rcases rlr with e | u
    · simp [runMain, hen]
    · simp [runMain, hen]
  · simp [runMain, hen]

/-- C3: with `network.announceAddrs` configured non-empty (static override
mode), the `AddrsFactory` returns the parsed configured address list for
every candidate address set, so the announced set never depends on the
candidates (`main.go` lines 96-106). -/
theorem announce_static_override (parse : String → Multiaddr) (cfg : Config)
    (h : 0 < cfg.Network.AnnounceAddrs.length) (cands : List Multiaddr) :
    mkAddrsFactory parse cfg cands = cfg.Network.AnnounceAddrs.map parse := by
  simp [mkAddrsFactory, h, buildAnnounceList_eq_map]

theorem announce_static_override_witness :
    0 < cfgStatic.Network.AnnounceAddrs.length ∧
      mkAddrsFactory parseAllPublic cfgStatic [addrLoop, addrPriv]
        = cfgStatic.Network.AnnounceAddrs.map parseAllPublic :=
  ⟨by decide,
   announce_static_override parseAllPublic cfgStatic (by decide)
     [addrLoop, addrPriv]⟩

/-- C4: with `network.announceAddrs` empty (automatic mode), every address
the `AddrsFactory` announces comes from the candidate list and is
classified publicly routable — in particular it is not loopback, private,
or link-local (`main.go` lines 107-119). -/
theorem announce_auto_public_subset (parse : String → Multiaddr)
    (cfg : Config) (h : cfg.Network.AnnounceAddrs = [])
    (cands : List Multiaddr) (a : Multiaddr)
    (ha : a ∈ mkAddrsFactory parse cfg cands) :
    a ∈ cands ∧ IsPublicAddr a = true ∧
      a.cls ≠ AddrClass.loopback ∧ a.cls ≠ AddrClass.privateAddr ∧
      a.cls ≠ AddrClass.linkLocal := by
  rw [mkAddrsFactory_auto parse cfg h] at ha
  have h1 := List.mem_filter.mp ha
  have hpub : a.cls = AddrClass.publicAddr := by
    have := h1.2
    simpa [IsPublicAddr] using this
  exact ⟨h1.1, by simp [IsPublicAddr, hpub], by simp [hpub], by simp [hpub],
    by simp [hpub]⟩

theorem announce_auto_public_subset_witness :
    cfgAuto.Network.AnnounceAddrs = [] ∧
      addrPub ∈ mkAddrsFactory parseAllPublic cfgAuto [addrLoop, addrPub] ∧
      (addrPub ∈ ([addrLoop, addrPub] : List Multiaddr) ∧
        IsPublicAddr addrPub = true ∧
        addrPub.cls ≠ AddrClass.loopback ∧
        addrPub.cls ≠ AddrClass.privateAddr ∧
        addrPub.cls ≠ AddrClass.linkLocal) :=
  ⟨by decide, by decide,
   announce_auto_public_subset parseAllPublic cfgAuto (by decide)
     [addrLoop, addrPub] addrPub (by decide)⟩

/-- C9: in automatic mode the `AddrsFactory` is an order-preserving filter:
its output is a subsequence of its input, and it is idempotent
(`main.go` lines 108-118). -/
theorem announce_auto_sublist_idem (parse : String → Multiaddr)
    (cfg : Config) (h : cfg.Network.AnnounceAddrs = [])
    (cands : List Multiaddr) :
    (mkAddrsFactory parse cfg cands).Sublist cands ∧
      mkAddrsFactory parse cfg (mkAddrsFactory parse cfg cands)
        = mkAddrsFactory parse cfg cands := by
  constructor
  · rw [mkAddrsFactory_auto parse cfg h]
    exact List.filter_sublist cands
  · rw [mkAddrsFactory_auto parse cfg h, mkAddrsFactory_auto parse cfg h,
      List.filter_filter]
    simp

theorem announce_auto_sublist_idem_witness :
    cfgAuto.Network.AnnounceAddrs = [] ∧
      (mkAddrsFactory parseAllPublic cfgAuto
        [addrLoop, addrPub, addrPriv]).Sublist [addrLoop, addrPub, addrPriv] ∧
      mkAddrsFactory parseAllPublic cfgAuto
          (mkAddrsFactory parseAllPublic cfgAuto [addrLoop, addrPub, addrPriv])
        = mkAddrsFactory parseAllPublic cfgAuto [addrLoop, addrPub, addrPriv] :=
  ⟨by decide,
   (announce_auto_sublist_idem parseAllPublic cfgAuto (by decide)
     [addrLoop, addrPub, addrPriv]).1,
   (announce_auto_sublist_idem parseAllPublic cfgAuto (by decide)
     [addrLoop, addrPub, addrPriv]).2⟩

/-- C10: `listenPprof` with port `-1` prints that pprof is disabled and
returns without attempting to bind any address; with any other port it
attempts to serve on `localhost:<port>` (`main.go` lines 180-186). -/
theorem pprof_disabled_or_binds (serve : String → ServeResult) (p : Int)
    (hp : p ≠ -1) :
    listenPprof serve (-1) = (PprofOutcome.disabled, none) ∧
      (listenPprof serve p).2 = some ("localhost:" ++ toString p) := by
  constructor
  · rfl
  · simp only [listenPprof, if_neg hp]
    cases serve ("localhost:" ++ toString p) <;> rfl

theorem pprof_disabled_or_binds_witness :
    (6060 : Int) ≠ -1 ∧
      (listenPprof (fun _ => ServeResult.ok) 6060).2
        = some ("localhost:" ++ toString (6060 : Int)) :=
  ⟨by decide,
   (pprof_disabled_or_binds (fun _ => ServeResult.ok) 6060 (by decide)).2⟩

/-- C5: a configuration-load failure, an identity-load failure, or a host
construction failure panics the process and performs none of the later
startup steps (`main.go` lines 40-47 and 143-146); a run that reaches
`select {}` always uses exactly the loaded identity, and the (spec-modelled)
`LoadIdentity` fails when the path exists but is unreadable or malformed,
so a bad identity file never silently yields a fresh identity. -/
theorem startup_fatal_stops (w : World) :
    (∀ e, w.configRes = .error e →
      runMain w = ⟨[Step.loadConfig], .panicked .loadConfig⟩) ∧
    (∀ cfg e, w.configRes = .ok cfg → w.identityRes = .error e →
      runMain w = ⟨[Step.loadConfig, Step.loadIdentity],
        .panicked .loadIdentity⟩) ∧
    (∀ cfg privk e, w.configRes = .ok cfg → w.identityRes = .ok privk →
      w.statsReporterRes = .ok () → w.rcmgrRes = .ok () →
      w.connMgrRes = .ok () → w.hostRes = .error e →
      (runMain w).outcome = .panicked .mkHost ∧
        Step.bootstrap ∉ (runMain w).trace ∧
        Step.mkACL ∉ (runMain w).trace ∧
        Step.startRelay ∉ (runMain w).trace) ∧
    (∀ st, (runMain w).outcome = .running st →
      w.identityRes = .ok st.hostKey) ∧
    (∀ fs path fresh, fs path = some KeyFile.unreadable →
      loadIdentity fs path fresh = .error "io error") ∧
    (∀ fs path fresh, fs path = some KeyFile.malformed →
      loadIdentity fs path fresh = .error "decode error") := by
  refine ⟨?_, ?_, ?_, ?_, ?_, ?_⟩
  · intro e h
    rcases w with ⟨cr, ir, sr, rr, skr, cmr, hr, br, ar, rlr⟩
    subst h
    simp [runMain]
  · intro cfg e h1 h2
    rcases w with ⟨cr, ir, sr, rr, skr, cmr, hr, br, ar, rlr⟩
    subst h1; subst h2
    simp [runMain]
  · intro cfg privk e h1 h2 h3 h4 h5 h6
    rcases w with ⟨cr, ir, sr, rr, skr, cmr, hr, br, ar, rlr⟩
    subst h1; subst h2; subst h3; subst h4; subst h5; subst h6
    simp [runMain]
  · intro st h
    exact runMain_running_identity w st h
  · intro fs path fresh h
    simp [loadIdentity, h]
  · intro fs path fresh h
    simp [loadIdentity, h]

theorem startup_fatal_stops_witness :
    runMain wCfgErr = ⟨[Step.loadConfig], .panicked .loadConfig⟩ :=
  (startup_fatal_stops wCfgErr).1 "parse error" rfl

/-- C6: in a run where every startup step succeeds, the relay service is
started iff `relayV2.enabled` is true, and when started it is wired with
the configured relay resources and the ACL constructed against the live
host (`main.go` lines 160-175); with the switch false the relay field of
the final state is `none`. -/
theorem relay_gated_and_wired (w : World) (cfg : Config) (privk : PrivKey)
    (hc : w.configRes = .ok cfg) (hi : w.identityRes = .ok privk)
    (hs : w.statsReporterRes = .ok ()) (hrm : w.rcmgrRes = .ok ())
    (hcm : w.connMgrRes = .ok ()) (hh : w.hostRes = .ok ())
    (hb : w.bootstrapRes = .ok ()) (ha : w.aclRes = .ok ())
    (hrel : w.relayRes = .ok ()) :
    (runMain w).outcome = .running
      ⟨privk, pskOf w.swarmKeyRes, addrModeOf cfg, ⟨privk, cfg.ACL⟩,
        if cfg.RelayV2.Enabled then
          some ⟨cfg.RelayV2.Resources, ⟨privk, cfg.ACL⟩⟩
        else none⟩ := by
  rcases w with ⟨cr, ir, sr, rr, skr, cmr, hr, br, ar, rlr⟩
  subst hc; subst hi; subst hs; subst hrm; subst hcm; subst hh
  subst hb; subst ha; subst hrel
  by_cases hen : cfg.RelayV2.Enabled
  · simp [runMain, hen]
  · simp [runMain, hen]

theorem relay_gated_and_wired_witness :
    (runMain wAllOk).outcome = .running
      ⟨42, pskOf wAllOk.swarmKeyRes, addrModeOf cfgStatic,
        ⟨42, cfgStatic.ACL⟩,
        if cfgStatic.RelayV2.Enabled then
          some ⟨cfgStatic.RelayV2.Resources, ⟨42, cfgStatic.ACL⟩⟩
        else none⟩ :=
  relay_gated_and_wired wAllOk cfgStatic 42 rfl rfl rfl rfl rfl rfl rfl rfl
    rfl

/-- C8: in every successful run the startup steps occur in the claimed
strict order: identity load, then resource-manager construction, then
ConnManager construction, then host construction, then routing bootstrap,
then ACL construction, and (when enabled) the relay service last
(`main.go` lines 44-175). -/
theorem startup_order (w : World) (cfg : Config) (privk : PrivKey)
    (hc : w.configRes = .ok cfg) (hi : w.identityRes = .ok privk)
    (hs : w.statsReporterRes = .ok ()) (hrm : w.rcmgrRes = .ok ())
    (hcm : w.connMgrRes = .ok ()) (hh : w.hostRes = .ok ())
    (hb : w.bootstrapRes = .ok ()) (ha : w.aclRes = .ok ())
    (hrel : w.relayRes = .ok ()) :
    stepBefore (runMain w).trace .loadIdentity .newResourceManager ∧
      stepBefore (runMain w).trace .newResourceManager .mkConnMgr ∧
      stepBefore (runMain w).trace .mkConnMgr .mkHost ∧
      stepBefore (runMain w).trace .mkHost .bootstrap ∧
      stepBefore (runMain w).trace .bootstrap .mkACL ∧
      (cfg.RelayV2.Enabled = true →
        stepBefore (runMain w).trace .mkACL .startRelay ∧
          (runMain w).trace.getLast? = some Step.startRelay) := by
  rcases w with ⟨cr, ir, sr, rr, skr, cmr, hr, br, ar, rlr⟩
  subst hc; subst hi; subst hs; subst hrm; subst hcm; subst hh
  subst hb; subst ha; subst hrel
  cases hen : cfg.RelayV2.Enabled
  · simp only [runMain, hen, if_false, Bool.false_eq_true]
    refine ⟨by decide, by decide, by decide, by decide, by decide, ?_⟩
    intro hf
    exact absurd hf (by decide)
  · simp only [runMain, hen, if_true]
    refine ⟨by decide, by decide, by decide, by decide, by decide, ?_⟩
    intro _
    exact ⟨by decide, by decide⟩

theorem startup_order_witness :
    stepBefore (runMain wAllOk).trace .loadIdentity .newResourceManager ∧
      (runMain wAllOk).trace.getLast? = some Step.startRelay :=
  ⟨(startup_order wAllOk cfgStatic 42 rfl rfl rfl rfl rfl rfl rfl rfl
      rfl).1,
   ((startup_order wAllOk cfgStatic 42 rfl rfl rfl rfl rfl rfl rfl rfl
      rfl).2.2.2.2.2 rfl).2⟩

/-- C1 counterexample: with `LoadSwarmKey` failing and every other step
succeeding, `main` still proceeds to host construction and ends up running
(`main.go` lines 85-94 print the error and fall through) — refuting "the
process must not proceed to host construction". -/
theorem swarm_key_error_not_fatal_counterexample :
    Step.mkHost ∈ (runMain wSwarmErr).trace ∧
      (runMain wSwarmErr).outcome = .running
        ⟨42, none, .autoMode, ⟨42, 3⟩, some ⟨7, ⟨42, 3⟩⟩⟩ := by
  decide

/-- C1 amended: an absent swarm-key path is not an error and yields "no
secret"; a present but malformed or unreadable file yields an Error; but a
swarm-key load error does not stop startup: `main` prints it and proceeds
to host construction with no private network (fail-open, `main.go`
lines 85-94). -/
theorem swarm_key_fail_open (fs : String → Option KeyFile) (path : String) :
    (fs path = none → loadSwarmKey fs path = .ok none) ∧
      (fs path = some KeyFile.malformed →
        loadSwarmKey fs path = .error "decode error") ∧
      (fs path = some KeyFile.unreadable →
        loadSwarmKey fs path = .error "io error") ∧
      (∀ w : World, ∀ cfg privk e, w.configRes = .ok cfg →
        w.identityRes = .ok privk → w.statsReporterRes = .ok () →
        w.rcmgrRes = .ok () → w.swarmKeyRes = .error e →
        w.connMgrRes = .ok () →
        Step.mkHost ∈ (runMain w).trace ∧
          ∀ st, (runMain w).outcome = .running st → st.psk = none) := by
  refine ⟨?_, ?_, ?_, ?_⟩
  · intro h; simp [loadSwarmKey, h]
  · intro h; simp [loadSwarmKey, h]
  · intro h; simp [loadSwarmKey, h]
  · intro w cfg privk e h1 h2 h3 h4 h5 h6
    refine ⟨runMain_mkHost_mem w cfg privk h1 h2 h3 h4 h6, ?_⟩
    intro st hrun
    rw [runMain_running_psk w st hrun, h5]
    rfl

theorem swarm_key_fail_open_witness :
    loadSwarmKey (fun _ => (none : Option KeyFile)) "swarm.key"
        = Except.ok none ∧
      Step.mkHost ∈ (runMain wSwarmErr).trace :=
  ⟨(swarm_key_fail_open (fun _ => none) "swarm.key").1 rfl,
   ((swarm_key_fail_open (fun _ => none) "swarm.key").2.2.2 wSwarmErr
     cfgAuto 42 "decode error" rfl rfl rfl rfl rfl rfl).1⟩

/-- C2 counterexample: with every prior step succeeding and `Bootstrap`
returning an error, `main` panics at the bootstrap step and never
constructs the ACL or starts the relay (`main.go` lines 147-150) —
refuting "bootstrap failure never terminates the process". -/
theorem bootstrap_failure_counterexample :
    (runMain wBootErr).outcome = .panicked .bootstrap ∧
      Step.mkACL ∉ (runMain wBootErr).trace ∧
      Step.startRelay ∉ (runMain wBootErr).trace := by
  decide

/-- C2 amended: if routing bootstrap returns an error, the failure is
fatal: `main` panics at the bootstrap step and performs no further startup
step (no ACL construction, no relay service) (`main.go` lines 147-150). -/
theorem bootstrap_failure_panics (w : World) (cfg : Config)
    (privk : PrivKey) (e : Err) (hc : w.configRes = .ok cfg)
    (hi : w.identityRes = .ok privk) (hs : w.statsReporterRes = .ok ())
    (hrm : w.rcmgrRes = .ok ()) (hcm : w.connMgrRes = .ok ())
    (hh : w.hostRes = .ok ()) (hb : w.bootstrapRes = .error e) :
    (runMain w).outcome = .panicked .bootstrap ∧
      Step.mkACL ∉ (runMain w).trace ∧
      Step.startRelay ∉ (runMain w).trace := by
  rcases w with ⟨cr, ir, sr, rr, skr, cmr, hr, br, ar, rlr⟩
  subst hc; subst hi; subst hs; subst hrm; subst hcm; subst hh; subst hb
  simp [runMain]

theorem bootstrap_failure_panics_witness :
    (runMain wBootErr).outcome = .panicked .bootstrap ∧
      Step.mkACL ∉ (runMain wBootErr).trace ∧
      Step.startRelay ∉ (runMain wBootErr).trace :=
  bootstrap_failure_panics wBootErr cfgAuto 42 "no seeds reachable" rfl rfl
    rfl rfl rfl rfl rfl

/-- C7 counterexample: a pprof bind failure makes `listenPprof` print the
error and `panic(err)` — a panic in a goroutine crashes the whole Go
process — and the metrics goroutine ends in `log.Fatal`, which terminates
the process (`main.go` lines 50-53 and 192-196) — refuting "such a failure
never terminates the process". -/
theorem observability_failure_counterexample :
    (listenPprof (fun _ => ServeResult.err "listen: address in use")
        6060).1 = PprofOutcome.panicked "listen: address in use" ∧
      promServer (fun _ => "listen: address in use") 9090
        = PromOutcome.fatalExit "listen: address in use" :=
  ⟨rfl, rfl⟩

/-- C7 amended: an observability-endpoint serve failure is reported and
then terminates the process: `listenPprof` prints the error and panics on
any serve error other than a clean close (`main.go` lines 192-196), and
the metrics goroutine wraps its serve call in `log.Fatal`
(lines 50-53). -/
theorem observability_failure_fatal (serve : String → ServeResult)
    (p : Int) (e : Err) (hp : p ≠ -1)
    (he : serve ("localhost:" ++ toString p) = .err e) :
    (listenPprof serve p).1 = .panicked e ∧
      ∀ (pserve : Int → Err) (port : Int),
        promServer pserve port = .fatalExit (pserve port) := by
  constructor
  · simp only [listenPprof, if_neg hp, he]
  · intro pserve port
    rfl

theorem observability_failure_fatal_witness :
    (listenPprof (fun _ => ServeResult.err "addr in use") 6060).1
        = PprofOutcome.panicked "addr in use" ∧
      promServer (fun _ => "addr in use") 9090
        = PromOutcome.fatalExit "addr in use" :=
  ⟨(observability_failure_fatal (fun _ => ServeResult.err "addr in use")
      6060 "addr in use" (by decide) rfl).1,
   (observability_failure_fatal (fun _ => ServeResult.err "addr in use")
      6060 "addr in use" (by decide) rfl).2 (fun _ => "addr in use") 9090⟩

end RelayDaemon
